import Mathlib

/-!
Shallow embedding of the filtering / aggregation core of the SA road-crash
map application (src/app.js), together with theorems settling the frozen
claims about it.

JavaScript conventions modelled explicitly:
* `parseInt` / `parseFloat` return `Option Int` / `Option ℚ`, `none` = NaN;
* comparisons against NaN are false (`jsNumLt`, `jsNumGt`);
* string record fields that the code tests for truthiness are `String`s with
  `""` standing for both the absent field and the empty string (the code
  treats these identically wherever such a field is read);
* JS string `<` is lexicographic on code units, which for the ASCII data at
  hand coincides with Lean's `String` order.
-/

/-- JS whitespace accepted by `parseInt` / `parseFloat` before the number. -/
def isJsSpace (c : Char) : Bool :=
  c = ' ' || c = '\t' || c = '\n' || c = '\r'

/-- Numeric value of the maximal leading run of decimal digits. -/
def takeDigits : List Char → List Nat
  | [] => []
  | c :: cs => if c.isDigit then (c.toNat - 48) :: takeDigits cs else []

def natOfDigits (ds : List Nat) : Nat :=
  ds.foldl (fun a d => a * 10 + d) 0

/-- JS `parseInt(s)` (radix 10): skip leading whitespace, optional sign,
maximal digit prefix; `none` = NaN when no digit is found. -/
def jsParseInt (s : String) : Option Int :=
  let cs := s.toList.dropWhile isJsSpace
  let signRest : Int × List Char :=
    match cs with
    | '-' :: r => (-1, r)
    | '+' :: r => (1, r)
    | r => (1, r)
  let ds := takeDigits signRest.2
  if ds.isEmpty then none else some (signRest.1 * natOfDigits ds)

/-- JS `parseFloat(s)` restricted to plain decimal notation (optional sign,
digits, optional fractional part) — the coordinate columns of the dataset
use no exponent notation. `none` = NaN when no digit is found. -/
def jsParseFloat (s : String) : Option ℚ :=
  let cs := s.toList.dropWhile isJsSpace
  let signRest : ℚ × List Char :=
    match cs with
    | '-' :: r => (-1, r)
    | '+' :: r => (1, r)
    | r => (1, r)
  let intDs := takeDigits signRest.2
  let rest := signRest.2.drop intDs.length
  let fracDs : List Nat :=
    match rest with
    | '.' :: r => takeDigits r
    | _ => []
  if intDs.isEmpty && fracDs.isEmpty then none
  else
    some (signRest.1 *
      ((natOfDigits intDs : ℚ) + (natOfDigits fracDs : ℚ) / (10 : ℚ) ^ fracDs.length))

/-- JS `a < b` on numbers; any comparison involving NaN is false. -/
def jsNumLt : Option Int → Option Int → Bool
  | some a, some b => decide (a < b)
  | _, _ => false

/-- JS `a > b` on numbers; any comparison involving NaN is false. -/
def jsNumGt : Option Int → Option Int → Bool
  | some a, some b => decide (b < a)
  | _, _ => false

/-- Lexicographic code-unit comparison of character lists (the order JS
uses for string `<`; code units and code points agree on this data). -/
def strLtB : List Char → List Char → Bool
  | [], [] => false
  | [], _ :: _ => true
  | _ :: _, [] => false
  | a :: as, b :: bs =>
    if a.toNat < b.toNat then true
    else if b.toNat < a.toNat then false
    else strLtB as bs

/-- JS string `<` (lexicographic on code units). -/
def strLt (a b : String) : Bool := strLtB a.data b.data

/-- JS string `<=`: for the total order on strings, `a <= b` iff `!(b < a)`. -/
def strLe (a b : String) : Bool := !(strLt b a)

/-- JS `s.split(sep)` for a one-character separator: auxiliary walk over the
character list with the accumulated current segment. -/
def splitAux (sep : Char) : List Char → List Char → List (List Char)
  | [], acc => [acc.reverse]
  | c :: cs, acc =>
    if c = sep then acc.reverse :: splitAux sep cs [] else splitAux sep cs (c :: acc)

/-- JS `s.split(sep)` for a one-character separator (always at least one
segment, like the JS original). -/
def jsSplit (sep : Char) (s : String) : List String :=
  (splitAux sep s.data []).map fun l => ⟨l⟩

/-- JS `s.trim()` (the space characters occurring in this dataset). -/
def jsTrim (s : String) : String :=
  ⟨((s.data.dropWhile isJsSpace).reverse.dropWhile isJsSpace).reverse⟩

/-- JS `s.toUpperCase()` (ASCII, which is all this dataset contains). -/
def jsToUpper (s : String) : String :=
  ⟨s.data.map Char.toUpper⟩

/-- JS `s.padStart(2, '0')`. -/
def padStart2 (s : String) : String :=
  if s.length ≥ 2 then s else if s.length = 1 then "0" ++ s else "00"

/-- JS truthiness test `s && s.trim() !== ''` used for the flag columns. -/
def hasVal (s : String) : Bool :=
  !(s = "") && !(jsTrim s = "")

/-- One row of the casualty CSV, fields as read by the filter code. -/
structure Casualty where
  casualtyType : String   -- 'Casualty Type'
  AGE : String
  Sex : String
  injuryExtent : String   -- 'Injury Extent'
  seatBelt : String       -- 'Seat Belt'
  HELMET : String
  deriving DecidableEq, Repr

/-- One row of the units CSV, fields as read by the filter code.
`Number Occupants` is tested against `undefined`/`null` before parsing, so
it is kept as an `Option String`. -/
structure UnitRecord where
  unitType : String            -- 'Unit Type'
  vehYear : String             -- 'Veh Year'
  numberOccupants : Option String  -- 'Number Occupants'
  licenceType : String         -- 'Licence Type'
  vehRegState : String         -- 'Veh Reg State'
  directionOfTravel : String   -- 'Direction Of Travel'
  unitMovement : String        -- 'Unit Movement'
  TOWING : String
  deriving DecidableEq, Repr

/-- One enriched crash row: the crash CSV fields read by the filter code plus
the `_casualties` / `_units` collections attached by the record linker. -/
structure CrashRow where
  Year : String
  csefSeverity : String        -- 'CSEF Severity'
  crashType : String           -- 'Crash Type'
  weatherCond : String         -- 'Weather Cond'
  dayNight : String            -- DayNight
  duiInvolved : String         -- 'DUI Involved'
  drugsInvolved : String       -- 'Drugs Involved'
  LGA : String
  suburb : String              -- Suburb
  roadSurface : String         -- 'Road Surface'
  moistureCond : String        -- 'Moisture Cond'
  ROLLOVER : String
  FIRE : String
  crashDateTime : String       -- 'Crash Date Time'; "" = absent
  casualties : List Casualty   -- _casualties
  units : List UnitRecord      -- _units
  deriving DecidableEq, Repr

/-- The filter specification, mirroring the object built by
`getFilterValues()`. Multi-selects are value lists where `["all"]` (or any
list containing `"all"`) is the no-constraint sentinel; single selects use
the string `"all"`; date/time bounds use `""` for an absent bound. (The
redundant scalar `crashType` field of `getFilterValues`, unused by the
filter and encode paths, is omitted.) -/
structure Filters where
  yearFrom : Int
  yearTo : Int
  selectedSeverities : List String
  selectedCrashTypes : List String
  weather : String
  dayNight : String
  duiInvolved : String
  drugsInvolved : String
  selectedAreas : List String
  selectedSuburbs : List String
  dateFrom : String
  dateTo : String
  timeFrom : String
  timeTo : String
  selectedRoadUsers : List String
  selectedAgeGroups : List String
  selectedSexes : List String
  selectedInjuries : List String
  selectedSeatBelts : List String
  selectedHelmets : List String
  heavyVehicle : String
  selectedVehicles : List String
  selectedVehicleYears : List String
  selectedOccupants : List String
  towing : String
  rollover : String
  fire : String
  selectedLicenseTypes : List String
  selectedRegStates : List String
  selectedDirections : List String
  selectedMovements : List String
  selectedRoadSurfaces : List String
  selectedMoistureConds : List String
  deriving DecidableEq, Repr

/-- The all-defaults specification: every group at "no constraint". -/
def defaultFilters : Filters where
  yearFrom := 2012
  yearTo := 2024
  selectedSeverities := ["all"]
  selectedCrashTypes := ["all"]
  weather := "all"
  dayNight := "all"
  duiInvolved := "all"
  drugsInvolved := "all"
  selectedAreas := ["all"]
  selectedSuburbs := ["all"]
  dateFrom := ""
  dateTo := ""
  timeFrom := ""
  timeTo := ""
  selectedRoadUsers := ["all"]
  selectedAgeGroups := ["all"]
  selectedSexes := ["all"]
  selectedInjuries := ["all"]
  selectedSeatBelts := ["all"]
  selectedHelmets := ["all"]
  heavyVehicle := "all"
  selectedVehicles := ["all"]
  selectedVehicleYears := ["all"]
  selectedOccupants := ["all"]
  towing := "all"
  rollover := "all"
  fire := "all"
  selectedLicenseTypes := ["all"]
  selectedRegStates := ["all"]
  selectedDirections := ["all"]
  selectedMovements := ["all"]
  selectedRoadSurfaces := ["all"]
  selectedMoistureConds := ["all"]

/-- `matchesBasicFilters(row, filters)` from src/app.js (crash-level
predicates; each early `return false` becomes a conjunct). -/
def matchesBasicFilters (row : CrashRow) (f : Filters) : Bool :=
  let year := jsParseInt row.Year
  -- Year filter
  (!(jsNumLt year (some f.yearFrom) || jsNumGt year (some f.yearTo))) &&
  -- Severity filter
  (f.selectedSeverities.contains "all" || f.selectedSeverities.contains row.csefSeverity) &&
  -- Crash type filter
  (f.selectedCrashTypes.contains "all" || f.selectedCrashTypes.contains row.crashType) &&
  -- Weather filter
  (f.weather = "all" || row.weatherCond = f.weather) &&
  -- Day/Night filter
  (f.dayNight = "all" || row.dayNight = f.dayNight) &&
  -- DUI filter
  (f.duiInvolved = "all" ||
    (!(f.duiInvolved = "Yes" && !(hasVal row.duiInvolved)) &&
     !(f.duiInvolved = "No" && hasVal row.duiInvolved))) &&
  -- Drugs filter
  (f.drugsInvolved = "all" ||
    (!(f.drugsInvolved = "Yes" && !(hasVal row.drugsInvolved)) &&
     !(f.drugsInvolved = "No" && hasVal row.drugsInvolved))) &&
  -- Area filter
  (f.selectedAreas.contains "all" || f.selectedAreas.contains row.LGA) &&
  -- Suburb filter
  (f.selectedSuburbs.contains "all" || f.selectedSuburbs.contains row.suburb) &&
  -- Road Surface filter
  (f.selectedRoadSurfaces.contains "all" || f.selectedRoadSurfaces.contains row.roadSurface) &&
  -- Moisture Condition filter
  (f.selectedMoistureConds.contains "all" || f.selectedMoistureConds.contains row.moistureCond) &&
  -- Rollover filter
  (f.rollover = "all" ||
    (!(f.rollover = "Yes" && !(hasVal row.ROLLOVER)) &&
     !(f.rollover = "No" && hasVal row.ROLLOVER))) &&
  -- Fire filter
  (f.fire = "all" ||
    (!(f.fire = "Yes" && !(hasVal row.FIRE)) &&
     !(f.fire = "No" && hasVal row.FIRE)))

/-- `matchesDateTimeFilters(row, filters)` from src/app.js. Early `return
false`s become conjuncts; `parts.length >= 1` is kept even though
`splitOn` always yields at least one part, mirroring the source. -/
def matchesDateTimeFilters (row : CrashRow) (f : Filters) : Bool :=
  let cdt := row.crashDateTime
  if cdt = "" then
    -- `if (!crashDateTime) return (dateFrom || dateTo || timeFrom || timeTo) ? false : true`
    !(f.dateFrom ≠ "" || f.dateTo ≠ "" || f.timeFrom ≠ "" || f.timeTo ≠ "")
  else
    let parts := jsSplit ' ' cdt
    let dateOk :=
      if f.dateFrom ≠ "" || f.dateTo ≠ "" then
        if parts.length ≥ 1 then
          let dateParts := jsSplit '/' (parts.headD "")
          if dateParts.length = 3 then
            let crashDate :=
              dateParts.getD 2 "" ++ "-" ++ padStart2 (dateParts.getD 1 "") ++ "-" ++
                padStart2 (dateParts.getD 0 "")
            !(f.dateFrom ≠ "" && strLt crashDate f.dateFrom) &&
            !(f.dateTo ≠ "" && strLt f.dateTo crashDate)
          else false   -- malformed date with a date filter active
        else false     -- missing date with a date filter active
      else true
    let timeOk :=
      if f.timeFrom ≠ "" || f.timeTo ≠ "" then
        if parts.length ≥ 2 then
          let crashTime := parts.getD 1 ""
          if f.timeFrom ≠ "" && f.timeTo ≠ "" then
            if strLe f.timeFrom f.timeTo then
              -- normal range
              !(strLt crashTime f.timeFrom || strLt f.timeTo crashTime)
            else
              -- crosses midnight: fail only when < timeFrom AND > timeTo
              !(strLt crashTime f.timeFrom && strLt f.timeTo crashTime)
          else if f.timeFrom ≠ "" then !(strLt crashTime f.timeFrom)
          else !(strLt f.timeTo crashTime)
        else false     -- missing time with a time filter active
      else true
    dateOk && timeOk

/-- Age-group bucket test from the inner casualty lambda. -/
def ageGroupMatch (g : String) (age : Int) : Bool :=
  if g = "0-17" then decide (age ≥ 0 && age ≤ 17)
  else if g = "18-25" then decide (age ≥ 18 && age ≤ 25)
  else if g = "26-35" then decide (age ≥ 26 && age ≤ 35)
  else if g = "36-50" then decide (age ≥ 36 && age ≤ 50)
  else if g = "51-65" then decide (age ≥ 51 && age ≤ 65)
  else if g = "66+" then decide (age ≥ 66)
  else false

/-- Whether any casualty-level filter group is active. -/
def hasAnyCasualtyFilter (f : Filters) : Bool :=
  !(f.selectedRoadUsers.contains "all") || !(f.selectedAgeGroups.contains "all") ||
  !(f.selectedSexes.contains "all") || !(f.selectedInjuries.contains "all") ||
  !(f.selectedSeatBelts.contains "all") || !(f.selectedHelmets.contains "all")

/-- The per-casualty predicate inside `casualties.some(...)`: the casualty
must satisfy every active casualty filter. -/
def casualtyPred (f : Filters) (c : Casualty) : Bool :=
  (f.selectedRoadUsers.contains "all" || f.selectedRoadUsers.contains c.casualtyType) &&
  (f.selectedAgeGroups.contains "all" ||
    match jsParseInt c.AGE with
    | none => false   -- `if (isNaN(age)) return false`
    | some age => f.selectedAgeGroups.any (fun g => ageGroupMatch g age)) &&
  (f.selectedSexes.contains "all" || f.selectedSexes.contains c.Sex) &&
  (f.selectedInjuries.contains "all" || f.selectedInjuries.contains c.injuryExtent) &&
  (f.selectedSeatBelts.contains "all" || f.selectedSeatBelts.contains c.seatBelt) &&
  (f.selectedHelmets.contains "all" || f.selectedHelmets.contains c.HELMET)

/-- `matchesCasualtyFilters(row, filters)` from src/app.js: at least one
casualty must match all active casualty filters simultaneously. -/
def matchesCasualtyFilters (row : CrashRow) (f : Filters) : Bool :=
  if row.casualties.isEmpty then
    -- quick path: no casualties — pass only if no casualty filter is active
    f.selectedRoadUsers.contains "all" && f.selectedAgeGroups.contains "all" &&
    f.selectedSexes.contains "all" && f.selectedInjuries.contains "all" &&
    f.selectedSeatBelts.contains "all" && f.selectedHelmets.contains "all"
  else if !(hasAnyCasualtyFilter f) then true
  else row.casualties.any (casualtyPred f)

/-- The `HEAVY_VEHICLE_TYPES` constant from src/app.js. -/
def HEAVY_VEHICLE_TYPES : List String :=
  ["BDOUBLE - ROAD TRAIN", "SEMI TRAILER", "RIGID TRUCK LGE GE 4.5T",
   "OMNIBUS", "Light Truck LT 4.5T"]

/-- Vehicle-year bucket test from the inner unit lambda. -/
def vehicleYearMatch (range : String) (year : Int) : Bool :=
  if range = "pre-2000" then decide (year < 2000)
  else if range = "2000-2010" then decide (year ≥ 2000 && year ≤ 2010)
  else if range = "2011-2020" then decide (year ≥ 2011 && year ≤ 2020)
  else if range = "2021+" then decide (year ≥ 2021)
  else false

/-- Occupant-count bucket test from the inner unit lambda. -/
def occupantsMatch (value : String) (n : Int) : Bool :=
  if value = "1" then decide (n = 1)
  else if value = "2" then decide (n = 2)
  else if value = "3" then decide (n = 3)
  else if value = "4" then decide (n = 4)
  else if value = "5+" then decide (n ≥ 5)
  else false

/-- Whether any multi-select unit filter group is active. -/
def hasAnyMultiSelectUnitFilter (f : Filters) : Bool :=
  !(f.selectedVehicles.contains "all") || !(f.selectedVehicleYears.contains "all") ||
  !(f.selectedOccupants.contains "all") || !(f.selectedLicenseTypes.contains "all") ||
  !(f.selectedRegStates.contains "all") || !(f.selectedDirections.contains "all") ||
  !(f.selectedMovements.contains "all")

/-- The per-unit predicate inside `units.some(...)`: the unit must satisfy
every active multi-select unit filter. -/
def unitPred (f : Filters) (u : UnitRecord) : Bool :=
  (f.selectedVehicles.contains "all" || f.selectedVehicles.contains u.unitType) &&
  (f.selectedVehicleYears.contains "all" ||
    match jsParseInt u.vehYear with
    | none => false   -- no valid year data
    | some year => f.selectedVehicleYears.any (fun r => vehicleYearMatch r year)) &&
  (f.selectedOccupants.contains "all" ||
    match u.numberOccupants with
    | none => false   -- missing occupants data
    | some s =>
      match jsParseInt s with
      | none => false   -- unparseable occupants value
      | some n =>
        if n = 0 then false   -- skip units with 0 occupants
        else f.selectedOccupants.any (fun v => occupantsMatch v n)) &&
  (f.selectedLicenseTypes.contains "all" || f.selectedLicenseTypes.contains u.licenceType) &&
  (f.selectedRegStates.contains "all" || f.selectedRegStates.contains u.vehRegState) &&
  (f.selectedDirections.contains "all" || f.selectedDirections.contains u.directionOfTravel) &&
  (f.selectedMovements.contains "all" || f.selectedMovements.contains u.unitMovement)

/-- `matchesUnitsFilters(row, filters)` from src/app.js. The source's early
returns are flattened into an if-chain: with an active heavy-vehicle (resp.
towing) filter and an empty unit list, the function returns
`heavyVehicle !== 'yes'` (resp. `towing !== 'Yes'`) for the whole crash,
bypassing every later check. -/
def matchesUnitsFilters (row : CrashRow) (f : Filters) : Bool :=
  let units := row.units
  let hasHeavy := units.any (fun u => HEAVY_VEHICLE_TYPES.contains u.unitType)
  let hasTowing := units.any (fun u => hasVal u.TOWING)
  if f.heavyVehicle ≠ "all" && units.isEmpty then f.heavyVehicle ≠ "yes"
  else if f.heavyVehicle = "yes" && !hasHeavy then false
  else if f.heavyVehicle = "no" && hasHeavy then false
  else if f.towing ≠ "all" && units.isEmpty then f.towing ≠ "Yes"
  else if f.towing = "Yes" && !hasTowing then false
  else if f.towing = "No" && hasTowing then false
  else if !(hasAnyMultiSelectUnitFilter f) then true
  else if units.isEmpty then false
  else units.any (unitPred f)

/-- The record-set filter inside `applyFilters` (src/app.js):
`crashData.filter(row => matchesBasic && matchesDateTime && matchesCasualty
&& matchesUnits)`. -/
def applyFilters (rows : List CrashRow) (f : Filters) : List CrashRow :=
  rows.filter fun row =>
    matchesBasicFilters row f && matchesDateTimeFilters row f &&
    matchesCasualtyFilters row f && matchesUnitsFilters row f

/-- The inline `lgaMapping` alias table from `normalizeLGAName`
(src/app.js), as an association list in source order. -/
def lgaMapping : List (String × String) :=
  [("THE DC OF FRANKLIN HARBOUR", "DC FRANKLIN HARBOR."),
   ("THE DC OF MOUNT REMARKABLE", "DC MT.REMARKABLE."),
   ("MOUNT BARKER DISTRICT COUNCIL", "DC MT.BARKER."),
   ("CC MITCHAM.", "CITY OF MITCHAM"),
   ("CC MARION.", "CITY OF MARION"),
   ("CC OF NORWOOD,PAYNEHAM & ST PETERS", "THE CITY OF NORWOOD PAYNEHAM AND ST PETERS"),
   ("CC CAMPBELLTOWN.", "CAMPBELLTOWN CITY COUNCIL"),
   ("CC MT.GAMBIER.", "CITY OF MOUNT GAMBIER"),
   ("CC PT.AUGUSTA.", "PORT AUGUSTA CITY COUNCIL"),
   ("CC WHYALLA.", "THE CORPORATION OF THE CITY OF WHYALLA"),
   ("DC KIMBA.", "THE DC OF KIMBA"),
   ("DC CLEVE.", "THE DC OF CLEVE"),
   ("DC TUMBY BAY.", "THE DC OF TUMBY BAY"),
   ("DC LOWER EYRE PENINSULA", "LOWER EYRE COUNCIL"),
   ("DC ELLISTON.", "DC OF ELLISTON"),
   ("DC STREAKY BAY.", "THE DC OF STREAKY BAY"),
   ("DC WUDINNA. (DC LE HUNTE.)", "WUDINNA DISTRICT COUNCIL"),
   ("DC CEDUNA.", "THE DC OF CEDUNA"),
   ("LOXTON WAIKERIE DISTRICT COUNCIL", "THE DC OF LOXTON WAIKERIE"),
   ("DISTRICT COUNCIL OF GRANT", "THE DC OF GRANT"),
   ("DC ROBE.", "DC OF ROBE"),
   ("DC KINGSTON.", "KINGSTON DC"),
   ("DC TATIARA.", "TATIARA DC"),
   ("DC NARACOORTE & LUCINDALE.", "NARACOORTE LUCINDALE COUNCIL"),
   ("SOUTHERN MALLEE DISTRICT COUNCIL", "SOUTHERN MALLEE DC"),
   ("DC KAROONDA EAST MURRAY.", "THE DC OF KAROONDA EAST MURRAY"),
   ("RC MURRAY BRIDGE.", "THE RURAL CITY OF MURRAY BRIDGE"),
   ("DC VICTOR HARBOR.", "CITY OF VICTOR HARBOR"),
   ("DC YANKALILLA.", "THE DC OF YANKALILLA"),
   ("THE ADELAIDE HILLS COUNCIL", "ADELAIDE HILLS COUNCIL"),
   ("MID MURRAY DISTRICT COUNCIL", "MID MURRAY COUNCIL"),
   ("THE BAROSSA COUNCIL.", "THE BAROSSA COUNCIL"),
   ("CT GAWLER.", "TOWN OF GAWLER"),
   ("CITY OF PLAYFORD.", "CITY OF PLAYFORD"),
   ("DC MALLALA.", "ADELAIDE PLAINS COUNCIL"),
   ("WALKERVILLE TOWN COUNCIL", "THE CORPORATION OF THE TOWN OF WALKERVILLE"),
   ("COPPER COAST DISTRICT COUNCIL", "COPPER COAST COUNCIL"),
   ("BARUNGA WEST DISTRICT COUNCIL", "BARUNGA WEST COUNCIL"),
   ("NORTHERN AREAS DISTRICT COUNCIL", "NORTHERN AREAS COUNCIL"),
   ("CLARE AND GILBERT VALLEYS DISTRICT COUNCIL", "CLARE AND GILBERT VALLEYS COUNCIL"),
   ("DC OF ORROROO/CARRIETON", "THE DC OF ORROROO CARRIETON"),
   ("DC OF PETERBOROUGH", "THE DC OF PETERBOROUGH"),
   ("THE FLINDERS RANGES COUNCIL.", "THE FLINDERS RANGES COUNCIL"),
   ("DC CEDUNA", "THE DC OF CEDUNA"),
   ("REGIONAL COUNCIL OF GOYDER", "THE REGIONAL COUNCIL OF GOYDER"),
   ("DC RENMARK PARINGA", "RENMARK PARINGA COUNCIL"),
   ("UIA RIVERLAND", "UNINCORP (EASTERN)"),
   ("PT.PIRIE CITY & DIST. COUNCIL", "PORT PIRIE REGIONAL COUNCIL"),
   ("MC ROXBY DOWNS", "MUNICIPAL COUNCIL OF ROXBY DOWNS"),
   ("DC COOBER PEDY", "THE DC OF COOBER PEDY"),
   ("CC PT.LINCOLN.", "CITY OF PORT LINCOLN")]

/-- `normalizeLGAName(name)` from src/app.js: uppercase + trim, then an
exact lookup in the alias table; unmapped names are returned in their
preprocessed (uppercased, trimmed) form. -/
def normalizeLGAName (name : String) : String :=
  if name = "" then ""
  else
    let preprocessed := jsTrim (jsToUpper name)
    match lgaMapping.lookup preprocessed with
    | some canonical => canonical
    | none => preprocessed

/-- The per-canonical-name crash count built by `addChoropleth`
(`lgaCountsNormalized`, src/app.js): each row with a truthy, non-blank LGA
contributes 1 to the bucket of its normalized name. -/
def choroplethCount (rows : List CrashRow) (canonical : String) : Nat :=
  (rows.filter (fun r => hasVal r.LGA && normalizeLGAName r.LGA = canonical)).length

/-- `convertCoordinates(x, y)` from src/app.js, parameterized by the
external `proj4` projection (an out-of-scope library): `proj4` may throw
(`Except.error`, caught by the source's try/catch) or return a `[lng, lat]`
pair whose components may be NaN (`none`). -/
def convertCoordinates (proj4 : ℚ → ℚ → Except Unit (Option ℚ × Option ℚ))
    (x y : String) : Option (ℚ × ℚ) :=
  match jsParseFloat x, jsParseFloat y with
  | some xNum, some yNum =>
    match proj4 xNum yNum with
    | .error _ => none   -- the catch block returns null
    | .ok (lngOpt, latOpt) =>
      match latOpt, lngOpt with
      | some lat, some lng =>
        -- South Australia sanity bounding box
        if lat < -39 ∨ lat > -25 ∨ lng < 128 ∨ lng > 142 then none
        else some (lat, lng)
      | _, _ => none   -- `isNaN(lat) || isNaN(lng)`
  | _, _ => none       -- `isNaN(xNum) || isNaN(yNum)`

/-- The logarithmic choropleth intensity from `getColorForCount`
(src/app.js): `Math.log(count + 1) / Math.log(max + 1)`. -/
noncomputable def intensity (count maxCount : ℕ) : ℝ :=
  Real.log (count + 1) / Real.log (maxCount + 1)

/-- The ordered color stops of `getColorForCount` (src/app.js), in source
order: the first stop whose threshold the intensity exceeds gives the
color. -/
def rampStops : List (ℚ × String) :=
  [(0.96, "#FF00FF"), (0.92, "#FF1AFF"), (0.88, "#FF33FF"), (0.84, "#FF4DCC"),
   (0.80, "#FF66B3"), (0.76, "#FF0066"), (0.72, "#FF0033"), (0.70, "#FF0000"),
   (0.69, "#FF0D00"), (0.68, "#FF1A00"), (0.67, "#FF2600"), (0.66, "#FF3300"),
   (0.65, "#FF4000"), (0.64, "#FF4D00"), (0.63, "#FF5900"), (0.62, "#FF6600"),
   (0.61, "#FF7000"), (0.60, "#FF7700"), (0.59, "#FF7F00"), (0.58, "#FF8800"),
   (0.57, "#FF9000"), (0.56, "#FF9900"), (0.55, "#FFA200"), (0.54, "#FFAA00"),
   (0.52, "#FFB300"), (0.48, "#FF8C00"), (0.44, "#FFA500"), (0.40, "#FFB700"),
   (0.36, "#FFCC00"), (0.32, "#FFE000"), (0.28, "#FFFF00"), (0.24, "#D4FF00"),
   (0.20, "#A8FF00"), (0.18, "#7CFC00"), (0.16, "#32CD32"), (0.14, "#00FF00"),
   (0.12, "#00E68A"), (0.10, "#00CED1"), (0.08, "#00BFFF"), (0.06, "#1E90FF"),
   (0.04, "#4169E1"), (0.02, "#6A5ACD")]

section ColorScale

open Classical

/-- The if-chain of `getColorForCount` (src/app.js) as a walk down the
ordered stops; past the last stop the bottom color `#4B0082` is returned. -/
noncomputable def pickColor (x : ℝ) : List (ℚ × String) → String
  | [] => "#4B0082"
  | (t, c) :: rest => if x > (t : ℝ) then c else pickColor x rest

/-- The 40+-step color ramp of `getColorForCount` (src/app.js), applied to
an intensity value. -/
noncomputable def colorRamp (x : ℝ) : String :=
  pickColor x rampStops

/-- `getColorForCount(count, max)` from src/app.js: the distinguished
no-data color for a zero count, otherwise the ramp at the log intensity. -/
noncomputable def getColorForCount (count maxCount : ℕ) : String :=
  if count = 0 then "#0a0a0a"
  else colorRamp (intensity count maxCount)

end ColorScale

/-- URL query parameters as an association list (the image of
`URLSearchParams` for the keys the code uses, each set at most once). -/
def getParam (params : List (String × String)) (k : String) : Option String :=
  (params.find? (fun p => p.1 = k)).map (fun p => p.2)

def hasParam (params : List (String × String)) (k : String) : Bool :=
  (getParam params k).isSome

/-- `encodeFiltersToURL()` from src/app.js: the `params.set` calls, in
source order, on the filter values — only non-default values are emitted. -/
def encodeFiltersToURL (f : Filters) : List (String × String) :=
  (if f.yearFrom ≠ 2012 then [("yearFrom", toString f.yearFrom)] else []) ++
  (if f.yearTo ≠ 2024 then [("yearTo", toString f.yearTo)] else []) ++
  (if !(f.selectedSeverities.contains "all") then
    [("severity", String.intercalate "," (f.selectedSeverities.map jsTrim))] else []) ++
  (if !(f.selectedCrashTypes.contains "all") then
    [("crashType", String.intercalate "," (f.selectedCrashTypes.map jsTrim))] else []) ++
  (if f.weather ≠ "all" then [("weather", jsTrim f.weather)] else []) ++
  (if f.dayNight ≠ "all" then [("dayNight", jsTrim f.dayNight)] else []) ++
  (if f.duiInvolved ≠ "all" then [("dui", jsTrim f.duiInvolved)] else []) ++
  (if f.drugsInvolved ≠ "all" then [("drugs", jsTrim f.drugsInvolved)] else []) ++
  (if !(f.selectedAreas.contains "all") then
    [("areas", String.intercalate "," (f.selectedAreas.map jsTrim))] else []) ++
  (if f.dateFrom ≠ "" then [("dateFrom", f.dateFrom)] else []) ++
  (if f.dateTo ≠ "" then [("dateTo", f.dateTo)] else []) ++
  (if f.timeFrom ≠ "" then [("timeFrom", f.timeFrom)] else []) ++
  (if f.timeTo ≠ "" then [("timeTo", f.timeTo)] else [])

/-- The option values carried by the DOM widgets the decoder writes into
(checkbox-menu values and select-option values); the page markup is outside
the core, so the domains are parameters of the decoder model. -/
structure DomState where
  severityOptions : List String
  crashTypeOptions : List String
  areaOptions : List String
  weatherOptions : List String
  dayNightOptions : List String
  duiOptions : List String
  drugsOptions : List String
  deriving Repr

/-- `parseInt(v) || d` from the year decode: NaN and 0 are falsy. -/
def jsFalsyOr (s : Option String) (d : Int) : Int :=
  match s.bind jsParseInt with
  | some v => if v = 0 then d else v
  | none => d

/-- Decode of one checkbox menu: `loadFiltersFromURL` checks exactly the
boxes whose trimmed value is listed, then `getSelectedValues` reads back
the checked values, collapsing none/all to `["all"]`. An absent parameter
leaves the menu in its initial state, which reads as `["all"]`. -/
def decodeCheckboxMenu (options : List String) (param : Option String) : List String :=
  match param with
  | none => ["all"]
  | some csv =>
    let wanted := (jsSplit ',' csv).map jsTrim
    let checked := options.filter (fun v => wanted.contains (jsTrim v))
    if checked.isEmpty || checked.length = options.length then ["all"] else checked

/-- Decode of one single select: `loadFiltersFromURL` assigns
`select.value = opt.value` for every option whose trimmed value equals the
parameter (the last match wins); with no match, or an absent parameter, the
select keeps its initial `"all"` value. -/
def decodeSelect (options : List String) (param : Option String) : String :=
  match param with
  | none => "all"
  | some w =>
    match (options.filter (fun o => jsTrim o = w)).getLast? with
    | some o => o
    | none => "all"

/-- `loadFiltersFromURL()` from src/app.js composed with the subsequent
`getFilterValues()` read-back: the FilterSpecification the page holds after
decoding the given parameters into the DOM described by `dom`. Filter
groups with no URL parameter (suburbs and all casualty-, unit- and
condition-level groups have none at all) stay at their defaults. -/
def loadFiltersFromURL (dom : DomState) (params : List (String × String)) : Filters :=
  if params.isEmpty then defaultFilters   -- `if (!params.toString()) return`
  else
    { defaultFilters with
      yearFrom :=
        if hasParam params "yearFrom" || hasParam params "yearTo" then
          jsFalsyOr (getParam params "yearFrom") 2012
        else 2012
      yearTo :=
        if hasParam params "yearFrom" || hasParam params "yearTo" then
          jsFalsyOr (getParam params "yearTo") 2024
        else 2024
      selectedSeverities := decodeCheckboxMenu dom.severityOptions (getParam params "severity")
      selectedCrashTypes := decodeCheckboxMenu dom.crashTypeOptions (getParam params "crashType")
      weather := decodeSelect dom.weatherOptions (getParam params "weather")
      dayNight := decodeSelect dom.dayNightOptions (getParam params "dayNight")
      duiInvolved := decodeSelect dom.duiOptions (getParam params "dui")
      drugsInvolved := decodeSelect dom.drugsOptions (getParam params "drugs")
      selectedAreas := decodeCheckboxMenu dom.areaOptions (getParam params "areas")
      dateFrom := (getParam params "dateFrom").getD ""
      dateTo := (getParam params "dateTo").getD ""
      timeFrom := (getParam params "timeFrom").getD ""
      timeTo := (getParam params "timeTo").getD "" }

/-! ### Concrete fixtures used by the example parts of the claims -/

/-- A crash row with every string field blank and no attached children. -/
def blankRow : CrashRow where
  Year := ""
  csefSeverity := ""
  crashType := ""
  weatherCond := ""
  dayNight := ""
  duiInvolved := ""
  drugsInvolved := ""
  LGA := ""
  suburb := ""
  roadSurface := ""
  moistureCond := ""
  ROLLOVER := ""
  FIRE := ""
  crashDateTime := ""
  casualties := []
  units := []

/-- A unit row with every field blank. -/
def blankUnit : UnitRecord where
  unitType := ""
  vehYear := ""
  numberOccupants := none
  licenceType := ""
  vehRegState := ""
  directionOfTravel := ""
  unitMovement := ""
  TOWING := ""

/-- A crash from 2005, outside the slider's full [2012, 2024] extent. -/
def row2005 : CrashRow := { blankRow with Year := "2005" }

/-- A 16-year-old driver casualty (from the spec's worked example). -/
def driver16 : Casualty where
  casualtyType := "Driver"
  AGE := "16"
  Sex := ""
  injuryExtent := ""
  seatBelt := ""
  HELMET := ""

/-- A 40-year-old pedestrian casualty (from the spec's worked example). -/
def pedestrian40 : Casualty := { driver16 with casualtyType := "Pedestrian", AGE := "40" }

/-- The spec's example crash: casualties `[{Driver, 16}, {Pedestrian, 40}]`. -/
def exCasCrash : CrashRow := { blankRow with casualties := [driver16, pedestrian40] }

/-- Filter `{roadUser: Pedestrian, ageGroup: 0-17}`. -/
def filterPed0to17 : Filters :=
  { defaultFilters with selectedRoadUsers := ["Pedestrian"], selectedAgeGroups := ["0-17"] }

/-- Filter `{roadUser: Pedestrian, ageGroup: 36-50}`. -/
def filterPed36to50 : Filters :=
  { defaultFilters with selectedRoadUsers := ["Pedestrian"], selectedAgeGroups := ["36-50"] }

/-- A crash whose combined date-time field carries the given time token. -/
def rowAtTime (t : String) : CrashRow :=
  { blankRow with crashDateTime := "15/06/2020 " ++ t }

/-- The wraps-midnight filter `{timeFrom: "22:00", timeTo: "02:00"}`. -/
def filterWrapTime : Filters :=
  { defaultFilters with timeFrom := "22:00", timeTo := "02:00" }

/-- A crash whose date token `2x/1/2020` is malformed yet still splits into
three `/`-separated parts. -/
def rowBadDate : CrashRow := { blankRow with crashDateTime := "2x/1/2020 10:00" }

/-- An active date-range filter spanning the dataset years. -/
def filterDateRange : Filters :=
  { defaultFilters with dateFrom := "2012-01-01", dateTo := "2024-12-31" }

/-- The heavy-vehicle predicate set to `no`, all else default. -/
def filterHeavyNo : Filters := { defaultFilters with heavyVehicle := "no" }

/-- A projection stub standing for `proj4` in closed instances: maps every
input to the fixed in-bounds geographic pair (lng 138, lat -35). -/
def projInBounds : ℚ → ℚ → Except Unit (Option ℚ × Option ℚ) :=
  fun _ _ => .ok (some 138, some (-35))

/-- Crash rows whose raw LGA spellings `DC CEDUNA.` and `DC Ceduna` are two
distinct aliases of the same canonical council. -/
def cedunaRows : List CrashRow :=
  [{ blankRow with LGA := "DC CEDUNA." }, { blankRow with LGA := "DC Ceduna" }]

/-- Crash rows with the unmapped raw spellings `adelaide` and `Adelaide`. -/
def adelaideRows : List CrashRow :=
  [{ blankRow with LGA := "adelaide" }, { blankRow with LGA := "Adelaide" }]

/-- A concrete DOM state: the widget option domains used by the round-trip
instances (values as they appear in the page's filter widgets). -/
def exDom : DomState where
  severityOptions := ["1: PDO", "2: MI", "3: SI", "4: Fatal"]
  crashTypeOptions := ["Rear End", "Hit Fixed Object", "Side Swipe", "Right Angle"]
  areaOptions := ["CITY OF MITCHAM", "CITY OF MARION", "TOWN OF GAWLER"]
  weatherOptions := ["all", "Raining", "Not Raining"]
  dayNightOptions := ["all", "Day", "Night"]
  duiOptions := ["all", "Yes", "No"]
  drugsOptions := ["all", "Yes", "No"]

/-- A specification with an active non-default value for every
URL-encoded filter type. -/
def spec9 : Filters :=
  { defaultFilters with
    yearFrom := 2015
    yearTo := 2020
    selectedSeverities := ["4: Fatal"]
    selectedCrashTypes := ["Rear End"]
    weather := "Raining"
    dayNight := "Night"
    duiInvolved := "Yes"
    drugsInvolved := "No"
    selectedAreas := ["CITY OF MARION"]
    dateFrom := "2016-01-01"
    dateTo := "2019-12-31"
    timeFrom := "08:00"
    timeTo := "17:00" }

/-- A specification whose only non-default group is an active suburb
selection. -/
def specSuburb : Filters := { defaultFilters with selectedSuburbs := ["GLENELG"] }

/-- A crash row whose Year field does not parse as an integer. -/
def rowNanYear : CrashRow := { blankRow with Year := "N/A" }

/-- A unit whose occupant count does not parse as an integer. -/
def unitBadOccupants : UnitRecord := { blankUnit with numberOccupants := some "xx" }

/-- An active occupant-count filter, all else default. -/
def filterOcc1 : Filters := { defaultFilters with selectedOccupants := ["1"] }

/-- The Year filter outcome the default specification actually implements:
a year that parses must lie within [2012, 2024]; an unparseable year is
never excluded. -/
def yearWithinDefaultRange (row : CrashRow) : Bool :=
  match jsParseInt row.Year with
  | none => true
  | some y => decide (2012 ≤ y ∧ y ≤ 2024)

/-! ### Helper lemmas -/

lemma splitAux_length_pos (sep : Char) (cs : List Char) :
    ∀ acc, 1 ≤ (splitAux sep cs acc).length := by
  induction cs with
  | nil => intro acc; simp [splitAux]
  | cons c cs ih =>
    intro acc
    unfold splitAux
    split
    · simp
    · exact ih _

lemma jsSplit_length_pos (sep : Char) (s : String) : 1 ≤ (jsSplit sep s).length := by
  unfold jsSplit
  rw [List.length_map]
  exact splitAux_length_pos sep s.data []

lemma matchesBasicFilters_yearRange (row : CrashRow) (yf yt : Int) :
    matchesBasicFilters row { defaultFilters with yearFrom := yf, yearTo := yt } =
      !(jsNumLt (jsParseInt row.Year) (some yf) || jsNumGt (jsParseInt row.Year) (some yt)) := by
  simp +decide [matchesBasicFilters, defaultFilters]

lemma matchesDateTimeFilters_default (row : CrashRow) :
    matchesDateTimeFilters row defaultFilters = true := by
  simp +decide [matchesDateTimeFilters, defaultFilters]

lemma matchesCasualtyFilters_default (row : CrashRow) :
    matchesCasualtyFilters row defaultFilters = true := by
  simp +decide [matchesCasualtyFilters, defaultFilters, hasAnyCasualtyFilter]

lemma matchesUnitsFilters_default (row : CrashRow) :
    matchesUnitsFilters row defaultFilters = true := by
  simp +decide [matchesUnitsFilters, defaultFilters, hasAnyMultiSelectUnitFilter]

lemma matchesBasicFilters_default (row : CrashRow) :
    matchesBasicFilters row defaultFilters =
      !(jsNumLt (jsParseInt row.Year) (some 2012) ||
        jsNumGt (jsParseInt row.Year) (some 2024)) :=
  matchesBasicFilters_yearRange row 2012 2024

/-! ### Claims -/

/-- C1 (counterexample): with every filter group at its default, the filter
engine still evaluates the year-range check, so a collection holding a
crash whose Year is 2005 does not come back in full — the claim's
"returns exactly the full input collection" fails. -/
theorem C1_counterexample :
    applyFilters [row2005] defaultFilters ≠ [row2005] := by decide

/-- C1 (amended): applying the filter engine with the all-defaults
specification returns exactly the records whose Year field either fails to
parse or parses to a year within [2012, 2024]; records with parseable
out-of-range years are excluded even though every group is at its
"no constraint" default. -/
theorem C1_default_filters_keep_default_range_years (rows : List CrashRow) :
    applyFilters rows defaultFilters = rows.filter yearWithinDefaultRange := by
  unfold applyFilters
  refine List.filter_congr ?_
  intro row _
  rw [matchesDateTimeFilters_default, matchesCasualtyFilters_default,
    matchesUnitsFilters_default, matchesBasicFilters_default]
  simp only [Bool.and_true]
  unfold yearWithinDefaultRange
  cases h : jsParseInt row.Year with
  | none => simp [jsNumLt, jsNumGt]
  | some y =>
    simp only [jsNumLt, jsNumGt, Bool.not_or]
    by_cases h1 : y < 2012 <;> by_cases h2 : 2024 < y <;>
      (simp [h1, h2]; try omega)

/-- C10: a crash whose Year does not parse (`parseInt` yields NaN) passes
the year-range predicate for every `[yearFrom, yearTo]` setting, since both
NaN comparisons are false — unparseable years are wildcarded; by contrast,
a unit whose occupant count does not parse fails any active occupant
predicate (fails closed). -/
theorem C10_nan_year_wildcarded :
    (∀ (row : CrashRow) (yf yt : Int), jsParseInt row.Year = none →
      matchesBasicFilters row { defaultFilters with yearFrom := yf, yearTo := yt } = true) ∧
    (∀ (f : Filters) (u : UnitRecord), f.selectedOccupants.contains "all" = false →
      u.numberOccupants.bind jsParseInt = none → unitPred f u = false) := by
  constructor
  · intro row yf yt h
    rw [matchesBasicFilters_yearRange, h]
    simp [jsNumLt, jsNumGt]
  · intro f u hact hocc
    have hact' : "all" ∉ f.selectedOccupants := by simpa using hact
    cases h : u.numberOccupants with
    | none => simp [unitPred, hact', h]
    | some s =>
      rw [h] at hocc
      simp only [Option.some_bind] at hocc
      simp [unitPred, hact', h, hocc]

/-- C10 (witness): the crash with Year "N/A" passes the default year range,
and the unit with occupant count "xx" fails the active occupants filter. -/
theorem C10_nan_year_wildcarded_witness :
    jsParseInt rowNanYear.Year = none ∧
    matchesBasicFilters rowNanYear defaultFilters = true ∧
    filterOcc1.selectedOccupants.contains "all" = false ∧
    unitPred filterOcc1 unitBadOccupants = false :=
  ⟨by decide, C10_nan_year_wildcarded.1 rowNanYear 2012 2024 (by decide), by decide,
    C10_nan_year_wildcarded.2 filterOcc1 unitBadOccupants (by decide) (by decide)⟩

/-- C2: with at least one active casualty-level predicate, a crash passes
the casualty group iff some single attached casualty satisfies every active
casualty predicate simultaneously (a crash with no casualties passes for no
casualty); in particular the spec's worked example behaves as stated. -/
theorem C2_casualty_combined_match :
    (∀ (f : Filters) (row : CrashRow), hasAnyCasualtyFilter f = true →
      (matchesCasualtyFilters row f = true ↔
        ∃ c ∈ row.casualties, casualtyPred f c = true)) ∧
    matchesCasualtyFilters exCasCrash filterPed0to17 = false ∧
    matchesCasualtyFilters exCasCrash filterPed36to50 = true := by
  refine ⟨?_, by decide, by decide⟩
  intro f row h
  unfold matchesCasualtyFilters
  by_cases he : row.casualties.isEmpty
  · have hnil : row.casualties = [] := by simpa using he
    rw [if_pos he, hnil]
    simp only [List.mem_nil_iff, false_and, exists_false, iff_false]
    intro hc
    simp only [Bool.and_eq_true] at hc
    obtain ⟨⟨⟨⟨⟨h1, h2⟩, h3⟩, h4⟩, h5⟩, h6⟩ := hc
    have hfalse : hasAnyCasualtyFilter f = false := by
      unfold hasAnyCasualtyFilter
      rw [h1, h2, h3, h4, h5, h6]
      rfl
    rw [hfalse] at h
    exact Bool.false_ne_true h
  · rw [if_neg he, if_neg (by simp [h])]
    exact List.any_eq_true

/-- C2 (witness): the combined-match characterization applied to the spec's
worked example with the `{Pedestrian, 36-50}` filter. -/
theorem C2_casualty_combined_match_witness :
    hasAnyCasualtyFilter filterPed36to50 = true ∧
    (matchesCasualtyFilters exCasCrash filterPed36to50 = true ↔
      ∃ c ∈ exCasCrash.casualties, casualtyPred filterPed36to50 c = true) :=
  ⟨by decide, C2_casualty_combined_match.1 filterPed36to50 exCasCrash (by decide)⟩

/-- C3: for a crash whose combined field carries a time token and a filter
with both time bounds set (and no date bounds), the wraps-midnight rule
holds: when timeFrom > timeTo the crash time matches iff it is ≥ timeFrom
or ≤ timeTo, otherwise iff it lies within [timeFrom, timeTo]; the
22:00–02:00 examples behave as the spec states. -/
theorem C3_time_range_wraps_midnight :
    (∀ (f : Filters) (row : CrashRow),
      f.dateFrom = "" → f.dateTo = "" → f.timeFrom ≠ "" → f.timeTo ≠ "" →
      row.crashDateTime ≠ "" → 2 ≤ (jsSplit ' ' row.crashDateTime).length →
      (matchesDateTimeFilters row f = true ↔
        (let t := (jsSplit ' ' row.crashDateTime).getD 1 ""
         if strLe f.timeFrom f.timeTo = true
         then strLe f.timeFrom t = true ∧ strLe t f.timeTo = true
         else strLe f.timeFrom t = true ∨ strLe t f.timeTo = true))) ∧
    matchesDateTimeFilters (rowAtTime "23:30") filterWrapTime = true ∧
    matchesDateTimeFilters (rowAtTime "01:00") filterWrapTime = true ∧
    matchesDateTimeFilters (rowAtTime "12:00") filterWrapTime = false := by
  refine ⟨?_, by decide, by decide, by decide⟩
  intro f row h1 h2 h3 h4 h5 h6
  unfold matchesDateTimeFilters
  rw [if_neg h5]
  simp only [h1, h2, h3, h4, h6]
  by_cases hlt : strLt f.timeTo f.timeFrom = true <;>
    simp [strLe, hlt, h3, h4, Bool.not_or, Bool.not_and, and_comm, or_comm]

/-- C3 (witness): the characterization applied to the 23:30 crash and the
22:00–02:00 filter. -/
theorem C3_time_range_wraps_midnight_witness :
    matchesDateTimeFilters (rowAtTime "23:30") filterWrapTime = true ↔
      (let t := (jsSplit ' ' (rowAtTime "23:30").crashDateTime).getD 1 ""
       if strLe filterWrapTime.timeFrom filterWrapTime.timeTo = true
       then strLe filterWrapTime.timeFrom t = true ∧ strLe t filterWrapTime.timeTo = true
       else strLe filterWrapTime.timeFrom t = true ∨ strLe t filterWrapTime.timeTo = true) :=
  C3_time_range_wraps_midnight.1 filterWrapTime (rowAtTime "23:30")
    (by decide) (by decide) (by decide) (by decide) (by decide) (by decide)

/-- C4 (counterexample): the crash whose date token is the malformed
`2x/1/2020` (it still splits into three `/`-parts) is ACCEPTED by an active
date-range filter — the garbage rebuilt date `2020-01-2x` compares
lexicographically inside the range — contradicting the claim that a
malformed field always fails closed. -/
theorem C4_counterexample :
    rowBadDate.crashDateTime = "2x/1/2020 10:00" ∧
    filterDateRange.dateFrom ≠ "" ∧
    matchesDateTimeFilters rowBadDate filterDateRange = true := by decide

/-- C4 (amended): the date/time group fails closed exactly in these cases:
an absent combined field with any date or time bound active; a date token
that does not split into exactly three `/`-parts with a date bound active;
a missing second space-separated token with a time bound active. Other
malformed values are rebuilt and compared lexicographically and can match
(see the counterexample). -/
theorem C4_malformed_datetime_fails_closed :
    (∀ (f : Filters) (row : CrashRow),
      (f.dateFrom ≠ "" ∨ f.dateTo ≠ "" ∨ f.timeFrom ≠ "" ∨ f.timeTo ≠ "") →
      row.crashDateTime = "" → matchesDateTimeFilters row f = false) ∧
    (∀ (f : Filters) (row : CrashRow),
      (f.dateFrom ≠ "" ∨ f.dateTo ≠ "") → row.crashDateTime ≠ "" →
      (jsSplit '/' ((jsSplit ' ' row.crashDateTime).headD "")).length ≠ 3 →
      matchesDateTimeFilters row f = false) ∧
    (∀ (f : Filters) (row : CrashRow),
      (f.timeFrom ≠ "" ∨ f.timeTo ≠ "") → row.crashDateTime ≠ "" →
      (jsSplit ' ' row.crashDateTime).length < 2 →
      matchesDateTimeFilters row f = false) := by
  refine ⟨?_, ?_, ?_⟩
  · intro f row hact habs
    unfold matchesDateTimeFilters
    rw [if_pos habs]
    rcases hact with h | h | h | h <;> simp [h]
  · intro f row hact hne hparts
    unfold matchesDateTimeFilters
    rw [if_neg hne]
    have hcond : (decide (f.dateFrom ≠ "") || decide (f.dateTo ≠ "")) = true := by
      rcases hact with h | h <;> simp [h]
    simp only [hcond, hparts]
    simp [jsSplit_length_pos, hparts]
  · intro f row hact hne hparts
    unfold matchesDateTimeFilters
    rw [if_neg hne]
    have hcond : (decide (f.timeFrom ≠ "") || decide (f.timeTo ≠ "")) = true := by
      rcases hact with h | h <;> simp [h]
    have hlen : ¬ 2 ≤ (jsSplit ' ' row.crashDateTime).length := by omega
    simp [hcond, hlen]
    intro _ hf
    rcases hact with h | h
    · exact absurd hf h
    · exact h

/-- C4 (witness): a crash with an absent combined field is excluded by the
active date-range filter. -/
theorem C4_malformed_datetime_fails_closed_witness :
    filterDateRange.dateFrom ≠ "" ∧
    blankRow.crashDateTime = "" ∧
    matchesDateTimeFilters blankRow filterDateRange = false :=
  ⟨by decide, rfl,
    C4_malformed_datetime_fails_closed.1 filterDateRange blankRow (Or.inl (by decide)) rfl⟩

/-- C5 (counterexample): a crash with no attached units is ACCEPTED when
the heavy-vehicle predicate is active and set to `no` — the empty-units
early return yields `heavyVehicle !== 'yes'`, i.e. true — contradicting
the claim that any active unit-level predicate excludes such a crash. -/
theorem C5_counterexample :
    blankRow.units = [] ∧
    filterHeavyNo.heavyVehicle ≠ "all" ∧
    matchesUnitsFilters blankRow filterHeavyNo = true := by decide

/-- C5 (amended): for a crash with no attached units the unit group is
decided entirely by the first active early-return: an active heavy-vehicle
predicate returns `heavyVehicle ≠ yes` (excluding only the `yes` setting),
else an active towing predicate returns `towing ≠ Yes` (excluding only the
`Yes` setting), and only otherwise do active multi-select unit predicates
exclude the crash. -/
theorem C5_empty_units_policy (f : Filters) (row : CrashRow) (h : row.units = []) :
    matchesUnitsFilters row f =
      (if f.heavyVehicle ≠ "all" then decide (f.heavyVehicle ≠ "yes")
       else if f.towing ≠ "all" then decide (f.towing ≠ "Yes")
       else !(hasAnyMultiSelectUnitFilter f)) := by
  unfold matchesUnitsFilters
  rw [h]
  by_cases hh : f.heavyVehicle = "all"
  · by_cases ht : f.towing = "all"
    · by_cases hm : hasAnyMultiSelectUnitFilter f = true <;> simp [hh, ht, hm]
    · simp [hh, ht]
  · simp [hh]

/-- C5 (witness): the empty-units policy evaluated at the `heavyVehicle=no`
specification, where the crash is accepted. -/
theorem C5_empty_units_policy_witness :
    blankRow.units = [] ∧
    matchesUnitsFilters blankRow filterHeavyNo =
      (if filterHeavyNo.heavyVehicle ≠ "all" then decide (filterHeavyNo.heavyVehicle ≠ "yes")
       else if filterHeavyNo.towing ≠ "all" then decide (filterHeavyNo.towing ≠ "Yes")
       else !(hasAnyMultiSelectUnitFilter filterHeavyNo)) :=
  ⟨rfl, C5_empty_units_policy filterHeavyNo blankRow rfl⟩

/-- C6: the coordinate transformer is total (it returns a value — no
exception escapes, including from a throwing projection, which the catch
turns into "no result"): it returns `none` whenever either input fails to
parse as a finite number, `none` whenever the computed geographic pair is
NaN or falls outside the lat [-39, -25] / lng [128, 142] sanity box, and
the converted `(lat, lng)` pair otherwise. -/
theorem C6_convert_coordinates_policy
    (proj4 : ℚ → ℚ → Except Unit (Option ℚ × Option ℚ)) (x y : String) :
    ((jsParseFloat x = none ∨ jsParseFloat y = none) →
      convertCoordinates proj4 x y = none) ∧
    (∀ xn yn, jsParseFloat x = some xn → jsParseFloat y = some yn →
      proj4 xn yn = .error () → convertCoordinates proj4 x y = none) ∧
    (∀ xn yn lat lng, jsParseFloat x = some xn → jsParseFloat y = some yn →
      proj4 xn yn = .ok (some lng, some lat) →
      (((lat < -39 ∨ lat > -25 ∨ lng < 128 ∨ lng > 142) →
         convertCoordinates proj4 x y = none) ∧
       (¬(lat < -39 ∨ lat > -25 ∨ lng < 128 ∨ lng > 142) →
         convertCoordinates proj4 x y = some (lat, lng)))) := by
  refine ⟨?_, ?_, ?_⟩
  · intro h
    rcases h with h | h
    · cases hy : jsParseFloat y <;> simp [convertCoordinates, h, hy]
    · cases hx : jsParseFloat x <;> simp [convertCoordinates, h, hx]
  · intro xn yn hx hy hp
    simp [convertCoordinates, hx, hy, hp]
  · intro xn yn lat lng hx hy hp
    constructor
    · intro hout
      simp [convertCoordinates, hx, hy, hp, hout]
    · intro hin
      simp [convertCoordinates, hx, hy, hp, hin]

/-- C6 (witness): the transformer at concrete inputs — a non-numeric
easting yields no result, and a numeric pair under the in-bounds stub
projection yields the converted pair. -/
theorem C6_convert_coordinates_policy_witness :
    convertCoordinates projInBounds "abc" "1750000" = none ∧
    convertCoordinates projInBounds "1300000" "1750000" = some (-35, 138) := by
  constructor
  · exact (C6_convert_coordinates_policy projInBounds "abc" "1750000").1 (Or.inl (by decide))
  · have hxs : (jsParseFloat "1300000").isSome = true := by decide
    have hys : (jsParseFloat "1750000").isSome = true := by decide
    cases hx : jsParseFloat "1300000" with
    | none => rw [hx] at hxs; cases hxs
    | some xn =>
      cases hy : jsParseFloat "1750000" with
      | none => rw [hy] at hys; cases hys
      | some yn =>
        exact ((C6_convert_coordinates_policy projInBounds "1300000" "1750000").2.2
          xn yn (-35) 138 hx hy rfl).2 (by decide)

/-- C7 (counterexample): area names with no alias-table entry do NOT pass
through verbatim — they are uppercased and trimmed first — so the two
distinct unmapped raw spellings `adelaide` and `Adelaide` land in one
merged bucket `ADELAIDE`, and no bucket carries the verbatim raw name. -/
theorem C7_counterexample :
    lgaMapping.lookup "ADELAIDE" = none ∧
    normalizeLGAName "adelaide" ≠ "adelaide" ∧
    choroplethCount adelaideRows "ADELAIDE" = 2 ∧
    choroplethCount adelaideRows "adelaide" = 0 := by decide

/-- C7 (amended): the aggregation counts crashes per canonical name where
the canonical form of a raw name is its alias-table image when the
uppercased, trimmed spelling has an entry, and the uppercased, trimmed
spelling itself otherwise; two raw spellings that are aliases of the same
canonical council (here `DC CEDUNA.` and `DC Ceduna`) merge into one
bucket whose count is the sum of both. -/
theorem C7_area_aggregation_canonicalizes :
    (∀ name, name ≠ "" → lgaMapping.lookup (jsTrim (jsToUpper name)) = none →
      normalizeLGAName name = jsTrim (jsToUpper name)) ∧
    (∀ name canonical, name ≠ "" →
      lgaMapping.lookup (jsTrim (jsToUpper name)) = some canonical →
      normalizeLGAName name = canonical) ∧
    normalizeLGAName "DC CEDUNA." = normalizeLGAName "DC Ceduna" ∧
    choroplethCount cedunaRows "THE DC OF CEDUNA" = 2 := by
  refine ⟨?_, ?_, by decide, by decide⟩
  · intro name hne hnone
    unfold normalizeLGAName
    rw [if_neg hne]
    simp only [hnone]
  · intro name canonical hne hsome
    unfold normalizeLGAName
    rw [if_neg hne]
    simp only [hsome]

/-- C7 (witness): the canonicalization rules at the concrete spellings
`adelaide` (unmapped, passes through uppercased) and `DC Ceduna` (mapped
to its canonical council). -/
theorem C7_area_aggregation_canonicalizes_witness :
    normalizeLGAName "adelaide" = jsTrim (jsToUpper "adelaide") ∧
    normalizeLGAName "DC Ceduna" = "THE DC OF CEDUNA" :=
  ⟨C7_area_aggregation_canonicalizes.1 "adelaide" (by decide) (by decide),
   C7_area_aggregation_canonicalizes.2.1 "DC Ceduna" "THE DC OF CEDUNA"
     (by decide) (by decide)⟩


lemma pickColor_ne_noData (x : ℝ) (stops : List (ℚ × String))
    (h : stops.all (fun p => p.2 ≠ "#0a0a0a") = true) :
    pickColor x stops ≠ "#0a0a0a" := by
  induction stops with
  | nil =>
    unfold pickColor
    decide
  | cons p rest ih =>
    simp only [List.all_cons, Bool.and_eq_true] at h
    obtain ⟨hp, hrest⟩ := h
    obtain ⟨t, c⟩ := p
    unfold pickColor
    by_cases hx : x > (t : ℝ)
    · rw [if_pos hx]
      simpa using hp
    · rw [if_neg hx]
      exact ih hrest

/-- C8: a zero-count area gets the distinguished no-data color, which is
not a color of the ramp (in particular not its bottom step), and the
logarithmic intensity `log(count+1)/log(maxCount+1)` is strictly monotonic
in the count over `0 < c1 < c2 ≤ maxCount`. -/
theorem C8_choropleth_color_scale :
    (∀ maxCount, getColorForCount 0 maxCount = "#0a0a0a") ∧
    (∀ x, colorRamp x ≠ "#0a0a0a") ∧
    (∀ c1 c2 maxCount : ℕ, 0 < c1 → c1 < c2 → c2 ≤ maxCount →
      intensity c1 maxCount < intensity c2 maxCount) := by
  refine ⟨?_, ?_, ?_⟩
  · intro maxCount
    exact if_pos rfl
  · intro x
    unfold colorRamp
    exact pickColor_ne_noData x rampStops (by decide)
  · intro c1 c2 maxCount h1 h2 h3
    unfold intensity
    have hden : 0 < Real.log (maxCount + 1) := by
      apply Real.log_pos
      have : (2 : ℕ) ≤ maxCount := by omega
      have h2R : (2 : ℝ) ≤ (maxCount : ℝ) := by exact_mod_cast this
      linarith
    have hnum : Real.log (c1 + 1) < Real.log (c2 + 1) := by
      apply Real.log_lt_log
      · positivity
      · have : (c1 : ℝ) < (c2 : ℝ) := by exact_mod_cast h2
        linarith
    exact div_lt_div_of_pos_right hnum hden

/-- C8 (witness): the scale evaluated at counts 0, 1 < 2 with maxCount 2. -/
theorem C8_choropleth_color_scale_witness :
    getColorForCount 0 2 = "#0a0a0a" ∧
    colorRamp (1 / 2) ≠ "#0a0a0a" ∧
    intensity 1 2 < intensity 2 2 :=
  ⟨C8_choropleth_color_scale.1 2, C8_choropleth_color_scale.2.1 (1 / 2),
   C8_choropleth_color_scale.2.2 1 2 2 (by decide) (by decide) (by decide)⟩

lemma loadFiltersFromURL_selectedSuburbs (dom : DomState) (params : List (String × String)) :
    (loadFiltersFromURL dom params).selectedSuburbs = ["all"] := by
  unfold loadFiltersFromURL
  split <;> rfl

/-- C9 (counterexample): the claim fails for the suburb filter type — the
URL encoder emits no suburb parameter at all and the decoder always leaves
the suburb group at its `["all"]` default, so no specification with an
active non-default suburb selection ever round-trips. -/
theorem C9_counterexample :
    ¬ ∃ f : Filters, f.selectedSuburbs.contains "all" = false ∧
      (loadFiltersFromURL exDom (encodeFiltersToURL f)).selectedSuburbs =
        f.selectedSuburbs := by
  rintro ⟨f, hact, heq⟩
  rw [loadFiltersFromURL_selectedSuburbs] at heq
  rw [← heq] at hact
  exact absurd hact (by decide)

/-- C9 (amended): for every filter type the URL layer actually encodes
(year range, severity, crash type, weather, day/night, DUI, drugs, areas,
date bounds, time bounds) there is a specification with an active
non-default value of that type that round-trips exactly — `spec9` sets all
of them at once and is reproduced verbatim; filter groups without a URL
parameter (suburbs among them) always decode to their defaults. -/
theorem C9_url_roundtrip_encoded_types :
    loadFiltersFromURL exDom (encodeFiltersToURL spec9) = spec9 ∧
    (∀ f : Filters,
      (loadFiltersFromURL exDom (encodeFiltersToURL f)).selectedSuburbs = ["all"]) :=
  ⟨by decide, fun f => loadFiltersFromURL_selectedSuburbs exDom (encodeFiltersToURL f)⟩
